import Mathlib

/-!
# Verification of the `transi` extraction orchestration core

Shallow embedding of the Python modules
`src/ocr/pipeline/core/advanced_model_manager.py` and
`src/ocr/pipeline/core/enhanced_extractor.py`.

Modelling conventions:
* Python `float` is modelled by `ℚ`; all constants in the source are short
  decimals, written here as exact fractions (`0.2` becomes `2/10`).
* The mutable fields of `AdvancedModelManager` / the backend call log are
  threaded explicitly through an `ExtState` record.
* `self.models` (a Python dict of mutable `ModelConfig` dataclass objects)
  is modelled as a function `String → Option ModelConfig`; an in-place
  field assignment on a stored object becomes a functional update of the
  map at that key.
* The HTTP call in `_make_ollama_request` is a parameter
  `backend : String → String → ModelConfig → String × ℚ` mapping
  (model name, prompt, decoding config) to (raw response, elapsed time);
  the transport-failure path of the Python code (returning `""` with the
  elapsed time) is one possible behaviour of this parameter.  Every
  request is recorded in a call log (newest first) so that claims about
  the number of generate requests can be stated.
* `time.time()` timestamps (the `timestamp` attribute of
  `ExtractionResult`) are ambient wall-clock data with no behavioural
  role in any operation and are omitted from the record.
-/

namespace Transi

/-- `DocumentType` enum of `advanced_model_manager.py`. -/
inductive DocumentType where
  | LETTER
  | NEWSLETTER
  | REPORT
  | ARTICLE
  | UNKNOWN
  deriving DecidableEq, Repr

/-- `TaskType` enum of `advanced_model_manager.py`. -/
inductive TaskType where
  | DATE_EXTRACTION
  | TITLE_EXTRACTION
  | DESCRIPTION_EXTRACTION
  | VOLUME_ISSUE_EXTRACTION
  deriving DecidableEq, Repr

/-- `TaskType.value` strings. -/
def TaskType.value : TaskType → String
  | .DATE_EXTRACTION => "date"
  | .TITLE_EXTRACTION => "title"
  | .DESCRIPTION_EXTRACTION => "description"
  | .VOLUME_ISSUE_EXTRACTION => "volume_issue"

/-- `ModelConfig` dataclass: configuration for a specific model. -/
structure ModelConfig where
  name : String
  temperature : ℚ
  top_p : ℚ
  top_k : ℕ
  max_tokens : ℕ
  speed_score : ℕ
  accuracy_score : ℕ
  deriving DecidableEq, Repr

/-- `ExtractionResult`: enhanced result with confidence and metadata
(the wall-clock `timestamp` attribute is omitted, see the header). -/
structure ExtractionResult where
  value : String
  confidence : ℚ
  model_used : String
  processing_time : ℚ
  deriving DecidableEq, Repr

/-- `AdvancedModelManager._initialize_models`: the static registry of the
three model profiles, as a lookup function. -/
def _initialize_models : String → Option ModelConfig := fun name =>
  if name = "llama3.1:8b" then
    some { name := "llama3.1:8b", temperature := mkRat 1 10, top_p := mkRat 9 10,
           top_k := 40, max_tokens := 200, speed_score := 9, accuracy_score := 7 }
  else if name = "granite3.2-vision" then
    some { name := "granite3.2-vision", temperature := mkRat 3 10, top_p := mkRat 9 10,
           top_k := 40, max_tokens := 500, speed_score := 7, accuracy_score := 8 }
  else if name = "llama3.1:70b" then
    some { name := "llama3.1:70b", temperature := mkRat 5 10, top_p := mkRat 9 10,
           top_k := 50, max_tokens := 1000, speed_score := 4, accuracy_score := 10 }
  else none


/-! ## Kernel-computable rational arithmetic

The `Add`/`Sub`/`Mul`/`Div` instances of `ℚ` are `@[irreducible]` in the
standard library, so closed terms built from them cannot be evaluated by
`decide`.  The embedding therefore uses the following wrappers, each
proved equal to the standard operation; rational literals of the source
(`0.2` etc.) are written `mkRat 2 10`. -/

/-- Computable rational addition. -/
def qadd (a b : ℚ) : ℚ := mkRat (a.num * b.den + b.num * a.den) (a.den * b.den)

theorem qadd_eq (a b : ℚ) : qadd a b = a + b := (Rat.add_def' a b).symm

/-- Computable rational subtraction. -/
def qsub (a b : ℚ) : ℚ := mkRat (a.num * b.den - b.num * a.den) (a.den * b.den)

theorem qsub_eq (a b : ℚ) : qsub a b = a - b := (Rat.sub_def' a b).symm

/-- Computable rational multiplication. -/
def qmul (a b : ℚ) : ℚ := mkRat (a.num * b.num) (a.den * b.den)

theorem qmul_eq (a b : ℚ) : qmul a b = a * b := by
  rw [qmul, Rat.mul_def, Rat.normalize_eq_mkRat]

/-- Computable rational division. -/
def qdiv (a b : ℚ) : ℚ := qmul a (Rat.divInt b.den b.num)

theorem qdiv_eq (a b : ℚ) : qdiv a b = a / b := by
  rw [qdiv, qmul_eq, Rat.div_def, Rat.inv_def]

/-- Python `str.lower()` over the character list (kernel-computable
counterpart of `String.toLower`). -/
def pylower (s : String) : String := ⟨s.data.map Char.toLower⟩

/-- Python slicing `s[:n]` (kernel-computable counterpart of
`String.take`). -/
def pytake (s : String) (n : ℕ) : String := ⟨s.data.take n⟩

/-- Python `sep.join(parts)` (kernel-computable counterpart of
`String.intercalate`). -/
def pyjoin (sep : String) : List String → String
  | [] => ""
  | [s] => s
  | s :: rest => s ++ sep ++ pyjoin sep rest

/-- Python's builtin `min` on two floats (chooses the first argument on
ties), written with an explicit comparison so that it evaluates by
kernel reduction. -/
def pymin (a b : ℚ) : ℚ := if a ≤ b then a else b

/-- Python's builtin `max` on two floats (chooses the first argument on
ties). -/
def pymax (a b : ℚ) : ℚ := if b ≤ a then a else b

/-- Python's builtin `abs` on a float. -/
def pyabs (a : ℚ) : ℚ := if a < 0 then -a else a

/-- `AdvancedModelManager.get_model_config`.  The source reads
`base_config = self.models[model_name]` and then assigns
`base_config.temperature = ...`, mutating the dataclass object stored in
the registry dict; this is modelled by returning both the adjusted config
and the updated registry map.  A missing model name raises `KeyError` in
Python, modelled as `none`. -/
def get_model_config (models : String → Option ModelConfig)
    (model_name : String) (task : TaskType) :
    Option (ModelConfig × (String → Option ModelConfig)) :=
  match models model_name with
  | none => none
  | some base_config =>
    let adjusted : ModelConfig :=
      if task = .DATE_EXTRACTION ∨ task = .VOLUME_ISSUE_EXTRACTION then
        -- lower temperature for factual extractions
        { base_config with temperature := pymin (mkRat 2 10) base_config.temperature }
      else if task = .DESCRIPTION_EXTRACTION then
        -- higher temperature for creative summarization
        { base_config with temperature := pymax (mkRat 5 10) base_config.temperature }
      else
        base_config
    some (adjusted, fun n => if n = model_name then some adjusted else models n)

/-- The `task_preferences` dict of `select_optimal_model` (total over the
enum; `dict.get(task, ["granite3.2-vision"])` never takes its default). -/
def task_preferences : TaskType → List String
  | .DATE_EXTRACTION => ["llama3.1:8b", "granite3.2-vision"]
  | .TITLE_EXTRACTION => ["granite3.2-vision", "llama3.1:8b"]
  | .DESCRIPTION_EXTRACTION => ["llama3.1:70b", "granite3.2-vision"]
  | .VOLUME_ISSUE_EXTRACTION => ["llama3.1:8b", "granite3.2-vision"]

/-- Registry score lookup used in the `max(..., key=...)` calls of
`select_optimal_model`.  Python raises `KeyError` on an absent name; the
candidate lists only ever hold registry keys, so the `0` default is
unreachable in the translated call sites. -/
def scoreOf (models : String → Option ModelConfig) (f : ModelConfig → ℚ)
    (m : String) : ℚ :=
  match models m with
  | some c => f c
  | none => 0

/-- Python `max(iterable, key=key)`: first maximal element wins ties. -/
def maxByKey (key : String → ℚ) (a : String) : List String → String
  | [] => a
  | b :: rest => if key b > key a then maxByKey key b rest else maxByKey key a rest

/-- `AdvancedModelManager.select_optimal_model`.  The Python control flow
(`if doc == NEWSLETTER: if task in [...]: return ...` falling through,
`elif doc == LETTER: if task == DATE: return ...` falling through) is
flattened into the equivalent guard chain. -/
def select_optimal_model (models : String → Option ModelConfig)
    (task : TaskType) (doc_type : DocumentType)
    (text_quality : ℚ) (priority : String) : String :=
  if doc_type = .NEWSLETTER ∧
      (task = .TITLE_EXTRACTION ∨ task = .VOLUME_ISSUE_EXTRACTION) then
    -- newsletters often have complex layouts, prefer vision model
    "granite3.2-vision"
  else if doc_type = .LETTER ∧ task = .DATE_EXTRACTION then
    -- letters are usually simpler, can use faster models
    "llama3.1:8b"
  else if text_quality < mkRat 7 10 then
    -- use more robust models for poor quality text
    "granite3.2-vision"
  else
    match task_preferences task with
    | [] => "granite3.2-vision"  -- unreachable, the lists are nonempty
    | p :: ps =>
      if priority = "speed" then
        maxByKey (scoreOf models fun c => (c.speed_score : ℚ)) p ps
      else if priority = "accuracy" then
        maxByKey (scoreOf models fun c => (c.accuracy_score : ℚ)) p ps
      else
        maxByKey (scoreOf models fun c =>
          qdiv (qadd (c.speed_score : ℚ) (c.accuracy_score : ℚ)) 2) p ps

/-- `AdvancedModelManager.should_use_two_pass`. -/
def should_use_two_pass (task : TaskType) (confidence : ℚ)
    (doc_type : DocumentType) : Bool :=
  if confidence < mkRat 6 10 then
    true
  else if (doc_type = .NEWSLETTER ∨ doc_type = .REPORT) ∧ confidence < mkRat 8 10 then
    true
  else if task = .DESCRIPTION_EXTRACTION ∧ confidence < mkRat 75 100 then
    true
  else
    false

/-! ## Word-boundary regex model

The classifier patterns of `detect_document_type` are all of the shape
`\bliteral\b` (optionally with a trailing `s?`).  They are modelled by an
explicit word-boundary search over the character list, with Python's
`\w` = letters, digits and underscore (the inputs are lower-cased ASCII
text, where `Char.isAlphanum` agrees with Python's word-character class).
-/

/-- Python regex word character (`\w`) on the ASCII text at hand. -/
def isWordChar (c : Char) : Bool := c.isAlphanum || c = '_'

/-- Word-character test of an optional character, the string edge
counting as a non-word character. -/
def isWordOpt : Option Char → Bool
  | some c => isWordChar c
  | none => false

/-- If `pat` occurs literally at the head of `text`, return the rest of
`text`; otherwise `none`. -/
def litAt : List Char → List Char → Option (List Char)
  | [], rest => some rest
  | _ :: _, [] => none
  | p :: ps, c :: cs => if p = c then litAt ps cs else none

/-- Does `\b pat \b` match at the current position, `prev` being the
character just before it (`none` at the start of the string)?  A `\b`
holds where exactly one of the two adjacent positions is a word
character. -/
def wbAt (pat : List Char) (prev : Option Char) (text : List Char) : Bool :=
  match pat with
  | [] => false
  | p0 :: _ =>
    match litAt pat text with
    | none => false
    | some rest =>
      (isWordChar p0 != isWordOpt prev)
        && (isWordChar (pat.getLastD ' ') != isWordOpt rest.head?)

/-- Scan of all positions of `text` for a `\b pat \b` match. -/
def wbSearchAux (pat : List Char) (prev : Option Char) : List Char → Bool
  | [] => false
  | c :: cs => wbAt pat prev (c :: cs) || wbSearchAux pat (some c) cs

/-- `re.search(r'\b' + lit + (r's?' if optS) + r'\b', text)` as a
Boolean. -/
def reSearchWord (lit : String) (optS : Bool) (text : String) : Bool :=
  wbSearchAux lit.data none text.data
    || (optS && wbSearchAux (lit.data ++ ['s']) none text.data)

/-- Plain (boundary-free) substring occurrence, Python's `in`. -/
def litFound (pat : List Char) : List Char → Bool
  | [] => (litAt pat []).isSome
  | c :: cs => (litAt pat (c :: cs)).isSome || litFound pat cs

/-! ## Document classifier -/

/-- Classifier patterns: literal plus optional-`s` flag.  `letter_patterns`
of `detect_document_type`. -/
def letter_patterns : List (String × Bool) :=
  [("dear", false), ("sincerely", false), ("yours", false),
   ("best regards", false), ("from:", false), ("to:", false),
   ("subject:", false)]

/-- `newsletter_patterns` of `detect_document_type` (`articles?`,
`features?` carry an optional `s`). -/
def newsletter_patterns : List (String × Bool) :=
  [("volume", false), ("issue", false), ("newsletter", false),
   ("publication", false), ("editor", false), ("article", true),
   ("feature", true)]

/-- `report_patterns` of `detect_document_type`
(`recommendations?` carries an optional `s`). -/
def report_patterns : List (String × Bool) :=
  [("report", false), ("analysis", false), ("findings", false),
   ("conclusion", false), ("executive summary", false),
   ("recommendation", true)]

/-- `sum(1 for pattern in patterns if re.search(pattern, full_text))`. -/
def patternScore (pats : List (String × Bool)) (full_text : String) : ℕ :=
  (pats.filter fun p => reSearchWord p.1 p.2 full_text).length

/-- The joined, lower-cased document text used by
`detect_document_type`. -/
def fullTextOf (text_segments : List String) : String :=
  pylower (pyjoin " " text_segments)

/-- The cache key of `detect_document_type`: Python hashes
`full_text[:500]`; the prefix itself serves as the (collision-free
rendering of the) key. -/
def docKey (text_segments : List String) : String :=
  pytake (fullTextOf text_segments) 500

/-- The pattern-scoring body of `detect_document_type` (the part after
the cache check). -/
def classify_text (text_segments : List String) : DocumentType :=
  let full_text := fullTextOf text_segments
  let letter_score := patternScore letter_patterns full_text
  let newsletter_score := patternScore newsletter_patterns full_text
  let report_score := patternScore report_patterns full_text
  if letter_score ≥ 2 then .LETTER
  else if newsletter_score ≥ 2 then .NEWSLETTER
  else if report_score ≥ 2 then .REPORT
  else .UNKNOWN

/-! ## Quality estimator -/

/-- Count of characters matching `[^\w\s\.,!?;:\-\(\)"\']` (each such
character is one `findall` match). -/
def strangeCount (cs : List Char) : ℕ :=
  (cs.filter fun c =>
    !(isWordChar c || c.isWhitespace ||
      c ∈ ['.', ',', '!', '?', ';', ':', '-', '(', ')', '"', '\''])).length

/-- Number of `findall(r'\s{3,}')` matches: maximal whitespace runs of
length at least 3, tracked with the length of the current run. -/
def wsRunCount : List Char → ℕ → ℕ
  | [], run => if run ≥ 3 then 1 else 0
  | c :: cs, run =>
    if c.isWhitespace then wsRunCount cs (run + 1)
    else (if run ≥ 3 then 1 else 0) + wsRunCount cs 0

/-- Number of `findall(r'[a-z][A-Z]')` matches.  The matches cannot
overlap (a match ends in an upper-case letter, a match starts with a
lower-case one), so this is the count of adjacent lower–upper pairs. -/
def caseTransitionCount : List Char → ℕ
  | c1 :: c2 :: rest =>
    (if c1.isLower && c2.isUpper then 1 else 0) + caseTransitionCount (c2 :: rest)
  | _ => 0

/-- Number of `findall(r'\b\w{1,2}\b')` matches: maximal word-character
runs of length 1 or 2, tracked with the length of the current run. -/
def shortWordCount : List Char → ℕ → ℕ
  | [], run => if run = 1 ∨ run = 2 then 1 else 0
  | c :: cs, run =>
    if isWordChar c then shortWordCount cs (run + 1)
    else (if run = 1 ∨ run = 2 then 1 else 0) + shortWordCount cs 0

/-- `AdvancedModelManager.estimate_text_quality`. -/
def estimate_text_quality (text_segments : List String) : ℚ :=
  let full_text := pyjoin " " text_segments
  let cs := full_text.data
  if cs.length = 0 then 0
  else
    let issues : ℚ :=
      qadd (qadd (qadd (strangeCount cs : ℚ) (wsRunCount cs 0 : ℚ))
        (caseTransitionCount cs : ℚ)) (qmul (shortWordCount cs 0 : ℚ) (mkRat 1 10))
    let issue_ratio := qdiv issues (cs.length : ℚ)
    pymax 0 (pymin 1 (qsub 1 (qmul issue_ratio 10)))

/-! ## Confidence estimator -/

/-- `re.match(r'\d{4}-\d{2}-\d{2}', s)`: an anchored prefix match (the
rest of the string is unconstrained). -/
def isoDatePrefixMatch (s : String) : Bool :=
  match s.data with
  | a :: b :: c :: d :: h1 :: e :: f :: h2 :: g :: i :: _ =>
    a.isDigit && b.isDigit && c.isDigit && d.isDigit && h1 = '-' &&
      e.isDigit && f.isDigit && h2 = '-' && g.isDigit && i.isDigit
  | _ => false

/-- `re.match(r'\d{4}', s)`: four leading digits. -/
def yearPrefixMatch (s : String) : Bool :=
  match s.data with
  | a :: b :: c :: d :: _ => a.isDigit && b.isDigit && c.isDigit && d.isDigit
  | _ => false

/-- The "no answer" literals of `_estimate_confidence`. -/
def noAnswerLits : List String := ["no", "none", "not found", "n/a"]

/-- `EnhancedLLMExtractor._estimate_confidence`. -/
def _estimate_confidence (result : String) (task : TaskType)
    (text_segments : List String) : ℚ :=
  if result = "" ∨ pylower result ∈ noAnswerLits then mkRat 1 10
  else
    let confidence : ℚ := mkRat 1 2
    let confidence :=
      match task with
      | .DATE_EXTRACTION =>
        if isoDatePrefixMatch result then qadd confidence (mkRat 4 10)
        else if yearPrefixMatch result then qadd confidence (mkRat 3 10)
        else confidence
      | .TITLE_EXTRACTION =>
        let c := if 10 ≤ result.length ∧ result.length ≤ 100 then
          qadd confidence (mkRat 3 10) else confidence
        -- `result[0].isupper()`; `result` is nonempty in this branch
        if (result.data.headD ' ').isUpper then qadd c (mkRat 1 10) else c
      | .DESCRIPTION_EXTRACTION =>
        let c := if 50 ≤ result.length ∧ result.length ≤ 500 then
          qadd confidence (mkRat 3 10) else confidence
        if 2 ≤ (result.data.filter (· = '.')).length then qadd c (mkRat 1 10) else c
      | .VOLUME_ISSUE_EXTRACTION =>
        if ["volume", "vol", "issue", "no"].any
            (fun w => litFound w.data (pylower result).data) then
          qadd confidence (mkRat 4 10)
        else confidence
    let full_text := fullTextOf text_segments
    let confidence :=
      if litFound (pylower result).data full_text.data then qadd confidence (mkRat 1 10)
      else confidence
    pymin 1 confidence

/-! ## Mutable state of the manager/extractor -/

/-- Association-list lookup (Python dict read). -/
def lookupA {α : Type} : List (String × α) → String → Option α
  | [], _ => none
  | (k, v) :: rest, key => if key = k then some v else lookupA rest key

/-- Association-list insert-or-overwrite (Python dict assignment). -/
def updateA {α : Type} : List (String × α) → String → α → List (String × α)
  | [], key, v => [(key, v)]
  | (k, w) :: rest, key, v =>
    if key = k then (k, v) :: rest else (k, w) :: updateA rest key v

/-- One value of `AdvancedModelManager.performance_history`. -/
structure PerfEntry where
  times : List ℚ
  confidences : List ℚ
  count : ℕ
  deriving DecidableEq, Repr

/-- The mutable state threaded through the extractor: the model registry
(`self.models`), the document-type cache, the performance history, and
the instrumentation log of generate requests `(model name, prompt)`,
newest first. -/
structure ExtState where
  models : String → Option ModelConfig
  docTypeCache : List (String × DocumentType)
  perf : List (String × PerfEntry)
  calls : List (String × String)

/-- The state of a freshly constructed `AdvancedModelManager`. -/
def initExtState : ExtState :=
  { models := _initialize_models, docTypeCache := [], perf := [], calls := [] }

/-- `AdvancedModelManager.detect_document_type`, cache included. -/
def detect_document_type (st : ExtState) (text_segments : List String) :
    DocumentType × ExtState :=
  match lookupA st.docTypeCache (docKey text_segments) with
  | some d => (d, st)
  | none =>
    let doc_type := classify_text text_segments
    (doc_type,
      { st with docTypeCache :=
          updateA st.docTypeCache (docKey text_segments) doc_type })

/-- `AdvancedModelManager.record_performance`. -/
def record_performance (st : ExtState) (model_name : String)
    (task : TaskType) (processing_time confidence : ℚ) : ExtState :=
  let key := model_name ++ "_" ++ task.value
  let history := (lookupA st.perf key).getD ⟨[], [], 0⟩
  let history : PerfEntry :=
    { times := history.times ++ [processing_time],
      confidences := history.confidences ++ [confidence],
      count := history.count + 1 }
  -- keep only recent history (last 100 runs)
  let history :=
    if history.times.length > 100 then
      { history with
          times := history.times.drop (history.times.length - 100),
          confidences :=
            history.confidences.drop (history.confidences.length - 100) }
    else history
  { st with perf := updateA st.perf key history }

/-! ## Prompt builder -/

/-- The `base_prompts` nested dict of `create_enhanced_prompt`; only the
Date and Title tasks have entries, and only for Letter / Newsletter /
Report document types. -/
def base_prompt_for (task : TaskType) (doc_type : DocumentType) : Option String :=
  match task, doc_type with
  | .DATE_EXTRACTION, .LETTER => some
      "Extract the date from this letter. Look for dates in headers, signatures, or explicit date mentions.\nFocus on: letterhead dates, signature dates, \"Dear [Name]\" context dates.\nReturn in YYYY-MM-DD format if full date available, or YYYY if only year."
  | .DATE_EXTRACTION, .NEWSLETTER => some
      "Extract the publication date from this newsletter.\nLook for: issue dates, publication information, volume/issue headers.\nReturn in YYYY-MM-DD format if available, or YYYY if only year."
  | .DATE_EXTRACTION, .REPORT => some
      "Extract the report date or publication date.\nLook for: cover page dates, \"as of\" dates, publication information.\nReturn in YYYY-MM-DD format if available, or YYYY if only year."
  | .TITLE_EXTRACTION, .LETTER => some
      "Extract the main subject or title of this letter.\nLook for: subject lines, main topic in opening paragraph, letter purpose.\nReturn a clear, concise title that captures the letter's main purpose."
  | .TITLE_EXTRACTION, .NEWSLETTER => some
      "Extract the newsletter title or main headline.\nLook for: newsletter name, main article headline, publication title.\nReturn the primary title, not article subtitles."
  | .TITLE_EXTRACTION, .REPORT => some
      "Extract the report title or main heading.\nLook for: cover page title, main heading, report subject.\nReturn the primary report title."
  | _, _ => none

/-- Few-shot examples (text, result), as held in
`self.training_examples`. -/
def Examples := TaskType → List (String × String)

/-- The hard-coded part of `_load_training_examples` (the optional
`training_data` directory is external input; an arbitrary `Examples`
value is threaded where the examples matter). -/
def defaultExamples : Examples
  | .DATE_EXTRACTION =>
    [("6 January 1986. Dear Friends,", "1986-01-06"),
     ("November 15-17, 1985 meeting", "1985-11-15"),
     ("Published in 1984", "1984")]
  | .TITLE_EXTRACTION =>
    [("Central American Task Force Newsletter", "Central American Task Force Newsletter"),
     ("Dear Members, Re: Annual General Meeting", "Annual General Meeting Notice"),
     ("Blessings of peace and courage for the new year!", "New Year Blessings Message")]
  | .DESCRIPTION_EXTRACTION =>
    [("The Annual General Meeting took place...",
      "Summary of Annual General Meeting proceedings and decisions")]
  | .VOLUME_ISSUE_EXTRACTION =>
    [("Volume 3, Issue 1", "Volume 3, Issue 1"),
     ("Vol. 2 No. 4", "Volume 2, Issue 4"),
     ("Newsletter #12", "Issue 12")]

/-- `AdvancedModelManager.create_enhanced_prompt`. -/
def create_enhanced_prompt (task : TaskType) (doc_type : DocumentType)
    (examples : List (String × String)) : String :=
  let prompt := ((base_prompt_for task doc_type).getD
    ((base_prompt_for task .UNKNOWN).getD ""))
  let prompt :=
    if examples ≠ [] then
      (examples.take 3).foldl
        (fun acc e => acc ++ "Text: " ++ e.1 ++ "\nExtraction: " ++ e.2 ++ "\n\n")
        (prompt ++ "\n\nExamples:\n")
    else prompt
  if task = .DESCRIPTION_EXTRACTION then
    prompt ++ "\n\nThink step by step:\n1. Identify the main topic\n2. Find key details\n3. Summarize concisely"
  else prompt

/-! ## Inference client and extraction pipeline -/

/-- The inference backend: (model name, prompt, decoding config) to
(raw response text, elapsed seconds).  Transport failures of
`_make_ollama_request` (empty text, elapsed time) are one possible
behaviour of this parameter. -/
def Backend := String → String → ModelConfig → String × ℚ

/-- Python `str.strip()`: drop leading and trailing whitespace
(kernel-computable counterpart of `String.trim`). -/
def pystrip (s : String) : String :=
  ⟨((s.data.dropWhile Char.isWhitespace).reverse.dropWhile
      Char.isWhitespace).reverse⟩

/-- `EnhancedLLMExtractor._make_ollama_request`: issue the request,
strip the response, and log the generate call. -/
def _make_ollama_request (backend : Backend) (st : ExtState)
    (model_name prompt : String) (config : ModelConfig) :
    (String × ℚ) × ExtState :=
  let r := backend model_name prompt config
  ((pystrip r.1, r.2), { st with calls := (model_name, prompt) :: st.calls })

/-- `EnhancedLLMExtractor._extract_with_model`.  A model name absent
from the registry would raise `KeyError` in Python; that (unreachable
for the names this code passes) branch returns the state unchanged. -/
def _extract_with_model (backend : Backend) (ex : Examples) (st : ExtState)
    (task : TaskType) (text_segments : List String)
    (model_name : String) (doc_type : DocumentType) :
    ExtractionResult × ExtState :=
  match get_model_config st.models model_name task with
  | none => ({ value := "", confidence := 0, model_used := "KeyError",
               processing_time := 0 }, st)
  | some (config, models') =>
    let prompt := create_enhanced_prompt task doc_type (ex task)
      ++ "\n\nText to analyze:\n" ++ pyjoin " " text_segments
      ++ "\n\nExtraction:"
    let st := { st with models := models' }
    let out := _make_ollama_request backend st model_name prompt config
    let result := out.1.1
    let processing_time := out.1.2
    let st := out.2
    let confidence := _estimate_confidence result task text_segments
    let st := record_performance st model_name task processing_time confidence
    ({ value := result, confidence := confidence, model_used := model_name,
       processing_time := processing_time }, st)

/-- `EnhancedLLMExtractor._two_pass_extraction`. -/
def _two_pass_extraction (backend : Backend) (ex : Examples) (st : ExtState)
    (task : TaskType) (text_segments : List String)
    (doc_type : DocumentType) (first_result : ExtractionResult) :
    ExtractionResult × ExtState :=
  let second_model :=
    if first_result.model_used = "llama3.1:8b" then "granite3.2-vision"
    else if first_result.model_used = "granite3.2-vision" then "llama3.1:70b"
    else "granite3.2-vision"
  let out := _extract_with_model backend ex st task text_segments
    second_model doc_type
  let second_result := out.1
  if second_result.confidence > first_result.confidence then (second_result, out.2)
  else (first_result, out.2)

/-- `EnhancedLLMExtractor.extract_single`. -/
def extract_single (backend : Backend) (ex : Examples) (st : ExtState)
    (task : TaskType) (text_segments : List String) (priority : String) :
    ExtractionResult × ExtState :=
  let det := detect_document_type st text_segments
  let doc_type := det.1
  let st := det.2
  let text_quality := estimate_text_quality text_segments
  let model_name := select_optimal_model st.models task doc_type
    text_quality priority
  let fst_pass := _extract_with_model backend ex st task text_segments
    model_name doc_type
  let result := fst_pass.1
  let st := fst_pass.2
  if should_use_two_pass task result.confidence doc_type then
    _two_pass_extraction backend ex st task text_segments doc_type result
  else (result, st)

/-- `EnhancedLLMExtractor.extract_with_consensus`.  The Python function
builds a `results` list of two `ExtractionResult` objects, chooses
`best_result = max(results, key=confidence)` (first maximum on a tie),
possibly re-chooses `min(results, key=len(value))` (first minimum on a
tie) under the conservative-title rule, and then mutates the chosen
object's `model_used` attribute in place.  Because `best_result`
aliases an element of `results`, the mutation is visible through the
list; the middle component returns `results` as it stands on return, so
that the in-place update is observable. -/
def extract_with_consensus (backend : Backend) (ex : Examples)
    (st : ExtState) (task : TaskType) (text_segments : List String) :
    ExtractionResult × List ExtractionResult × ExtState :=
  let det := detect_document_type st text_segments
  let doc_type := det.1
  let st := det.2
  -- `for model in models[:2]` with a total backend: both iterations succeed
  let o1 := _extract_with_model backend ex st task text_segments
    "llama3.1:8b" doc_type
  let r1 := o1.1
  let o2 := _extract_with_model backend ex o1.2 task text_segments
    "granite3.2-vision" doc_type
  let r2 := o2.1
  let st := o2.2
  -- index of `max(results, key=lambda r: r.confidence)`
  let bestIdx : ℕ := if r2.confidence > r1.confidence then 1 else 0
  -- `len(results) > 1` holds; conservative-title re-selection:
  -- index of `min(results, key=lambda r: len(r.value))`
  let bestIdx :=
    if pyabs (qsub r1.confidence r2.confidence) < mkRat 2 10 ∧ r1.value ≠ r2.value ∧
        task = .TITLE_EXTRACTION then
      if r2.value.length < r1.value.length then 1 else 0
    else bestIdx
  let winner := if bestIdx = 1 then r2 else r1
  -- `best_result.model_used = f"consensus({best_result.model_used})"`:
  -- in-place mutation of the object shared with `results`
  let winner' :=
    { winner with model_used := "consensus(" ++ winner.model_used ++ ")" }
  let results' := if bestIdx = 1 then [r1, winner'] else [winner', r2]
  (winner', results', st)

/-- The fixed fan-out order of `extract_parallel`. -/
def parallel_tasks : List TaskType :=
  [.TITLE_EXTRACTION, .DATE_EXTRACTION, .DESCRIPTION_EXTRACTION,
   .VOLUME_ISSUE_EXTRACTION]

/-- `EnhancedLLMExtractor.extract_parallel`, at the fan-out boundary.
Each task's pipeline run (a `future.result()` call that may raise) is
abstracted as an `Except` value; an exception is caught and replaced by
the zero-confidence placeholder tagged `"error"`, and the combined
output is keyed by `task.value` exactly as the Python `results` dict. -/
def extract_parallel (run : TaskType → Except String ExtractionResult) :
    List (String × ExtractionResult) :=
  parallel_tasks.map fun t =>
    (t.value,
      match run t with
      | .ok r => r
      | .error _ =>
        { value := "", confidence := 0, model_used := "error",
          processing_time := 0 })

/-! ## Derived notions used by the verification statements -/

/-- The three model names populated by `_initialize_models`. -/
def registryKeys : List String :=
  ["llama3.1:8b", "granite3.2-vision", "llama3.1:70b"]

/-- A registry map binds all three model names (true of the initial
registry and preserved by every operation). -/
def hasRegistryKeys (models : String → Option ModelConfig) : Prop :=
  ∀ n ∈ registryKeys, (models n).isSome

instance (models : String → Option ModelConfig) :
    Decidable (hasRegistryKeys models) := by
  unfold hasRegistryKeys; infer_instance

/-- Two registry maps agree on the speed/accuracy scores of every model
(the only registry data `select_optimal_model` reads). -/
def scoresAgree (μ1 μ2 : String → Option ModelConfig) : Prop :=
  ∀ n, (μ1 n).map (fun c => (c.speed_score, c.accuracy_score)) =
    (μ2 n).map (fun c => (c.speed_score, c.accuracy_score))

/-- The temperature clamp of `get_model_config` as a function of the
task. -/
def clampT (task : TaskType) (x : ℚ) : ℚ :=
  if task = .DATE_EXTRACTION ∨ task = .VOLUME_ISSUE_EXTRACTION then
    pymin (mkRat 2 10) x
  else if task = .DESCRIPTION_EXTRACTION then pymax (mkRat 5 10) x
  else x

/-- `get_model_config`'s effect on a stored profile: clamp its
temperature for the given task. -/
def applyClamp (task : TaskType) (c : ModelConfig) : ModelConfig :=
  { c with temperature := clampT task c.temperature }

/-- Registry maps reachable from the initial registry by
`get_model_config` calls for one fixed task: every entry is either still
initial or temperature-clamped for that task. -/
def Rmod (task : TaskType) (μ : String → Option ModelConfig) : Prop :=
  ∀ n, μ n = _initialize_models n ∨
    μ n = (_initialize_models n).map (applyClamp task)

/-- The fixed second-pass model override chain of
`_two_pass_extraction` (lines 188–193 of `enhanced_extractor.py`). -/
def second_model_choice (m : String) : String :=
  if m = "llama3.1:8b" then "granite3.2-vision"
  else if m = "granite3.2-vision" then "llama3.1:70b"
  else "granite3.2-vision"

/-! ## Basic lemmas -/

theorem lookupA_updateA_self {α : Type} (l : List (String × α)) (k : String)
    (v : α) : lookupA (updateA l k v) k = some v := by
  induction l with
  | nil => simp [updateA, lookupA]
  | cons hd tl ih =>
    by_cases h : k = hd.1
    · simp [updateA, h, lookupA]
    · simp [updateA, h, lookupA, ih]

theorem lookupA_mem {α : Type} {l : List (String × α)} {k : String} {v : α}
    (h : lookupA l k = some v) : (k, v) ∈ l := by
  induction l with
  | nil => simp [lookupA] at h
  | cons hd tl ih =>
    by_cases hk : k = hd.1
    · simp [lookupA, hk] at h
      subst hk; rw [← h]
      exact List.mem_cons_self _ _
    · simp [lookupA, hk] at h
      exact List.mem_cons_of_mem _ (ih h)

theorem maxByKey_or (key : String → ℚ) (p q : String) :
    maxByKey key p [q] = p ∨ maxByKey key p [q] = q := by
  unfold maxByKey
  split <;> simp [maxByKey]

/-! ## Lemmas about `get_model_config` -/

theorem get_model_config_eq (μ : String → Option ModelConfig) (n : String)
    (t : TaskType) :
    get_model_config μ n t = (μ n).map fun c =>
      (applyClamp t c, fun m => if m = n then some (applyClamp t c) else μ m) := by
  rcases h : μ n with _ | c
  · simp [get_model_config, h]
  · simp only [get_model_config, h, Option.map_some]
    rcases t <;> simp [applyClamp, clampT]

theorem pymin_idem (a x : ℚ) : pymin a (pymin a x) = pymin a x := by
  unfold pymin
  split_ifs <;> first | rfl | linarith

theorem pymax_idem (a x : ℚ) : pymax a (pymax a x) = pymax a x := by
  unfold pymax
  split_ifs <;> first | rfl | linarith

theorem clampT_idem (t : TaskType) (x : ℚ) :
    clampT t (clampT t x) = clampT t x := by
  unfold clampT
  split_ifs
  · exact pymin_idem _ _
  · exact pymax_idem _ _
  · rfl

theorem applyClamp_idem (t : TaskType) (c : ModelConfig) :
    applyClamp t (applyClamp t c) = applyClamp t c := by
  simp [applyClamp, clampT_idem]

theorem Rmod_init (t : TaskType) : Rmod t _initialize_models :=
  fun _ => Or.inl rfl

theorem Rmod_scoresAgree {t : TaskType} {μ : String → Option ModelConfig}
    (h : Rmod t μ) : scoresAgree μ _initialize_models := by
  intro n
  rcases h n with e | e <;> rw [e]
  rcases _initialize_models n <;> simp [applyClamp]

theorem Rmod_config_fst {t : TaskType} {μ : String → Option ModelConfig}
    (h : Rmod t μ) (n : String) :
    (get_model_config μ n t).map (fun p => p.1) =
      (get_model_config _initialize_models n t).map (fun p => p.1) := by
  rw [get_model_config_eq, get_model_config_eq]
  rcases h n with e | e <;> rw [e]
  · rcases _initialize_models n <;> rfl
  · rcases _initialize_models n <;> first | rfl | simp [applyClamp_idem]

theorem Rmod_preserved {t : TaskType} {μ μ' : String → Option ModelConfig}
    {n : String} {c : ModelConfig}
    (h : Rmod t μ) (hs : get_model_config μ n t = some (c, μ')) : Rmod t μ' := by
  rw [get_model_config_eq] at hs
  rcases hμ : μ n with _ | c0
  · rw [hμ] at hs; exact Option.noConfusion hs
  · rw [hμ] at hs
    simp at hs
    obtain ⟨-, hfun⟩ := hs
    intro m
    rw [← hfun]
    by_cases hm : m = n
    · simp only [hm, if_pos rfl]
      right
      rcases h n with e | e <;> rw [hμ] at e
      · rw [← e]; rfl
      · rcases hinit : _initialize_models n with _ | base
        · rw [hinit] at e; exact Option.noConfusion e
        · rw [hinit] at e
          simp only [Option.map_some', Option.some_inj] at e
          simp [hinit, e, applyClamp_idem]
    · simp only [if_neg hm]
      exact h m

theorem Rmod_isSome {t : TaskType} {μ : String → Option ModelConfig}
    (h : Rmod t μ) {m : String} (hm : (_initialize_models m).isSome) :
    (μ m).isSome := by
  rcases h m with e | e <;> rw [e]
  · exact hm
  · rcases hinit : _initialize_models m with _ | c
    · rw [hinit] at hm; simp at hm
    · simp

/-! ## Lemmas about `detect_document_type` and the extraction steps -/

theorem detect_models (st : ExtState) (segs : List String) :
    (detect_document_type st segs).2.models = st.models := by
  unfold detect_document_type
  rcases lookupA st.docTypeCache (docKey segs) <;> rfl

theorem detect_calls (st : ExtState) (segs : List String) :
    (detect_document_type st segs).2.calls = st.calls := by
  unfold detect_document_type
  rcases lookupA st.docTypeCache (docKey segs) <;> rfl

theorem detect_cache_lookup (st : ExtState) (segs : List String) :
    lookupA (detect_document_type st segs).2.docTypeCache (docKey segs) =
      some ((detect_document_type st segs).1) := by
  unfold detect_document_type
  rcases h : lookupA st.docTypeCache (docKey segs) with _ | d
  · simpa using lookupA_updateA_self st.docTypeCache (docKey segs) _
  · simpa using h

theorem select_mem (μ : String → Option ModelConfig) (t : TaskType)
    (d : DocumentType) (q : ℚ) (p : String) :
    select_optimal_model μ t d q p ∈ registryKeys := by
  unfold select_optimal_model
  rcases t <;> simp only [task_preferences] <;> split_ifs <;>
    first
      | (simp [registryKeys]; done)
      | (rcases maxByKey_or _ _ _ with e | e <;> rw [e] <;> simp [registryKeys])

theorem ewm_models_none {b : Backend} {ex : Examples} {st : ExtState}
    {t : TaskType} {segs : List String} {n : String} {d : DocumentType}
    (h : st.models n = none) :
    _extract_with_model b ex st t segs n d =
      ({ value := "", confidence := 0, model_used := "KeyError",
         processing_time := 0 }, st) := by
  unfold _extract_with_model
  rw [get_model_config_eq, h]
  rfl

theorem ewm_cache (b : Backend) (ex : Examples) (st : ExtState)
    (t : TaskType) (segs : List String) (n : String) (d : DocumentType) :
    (_extract_with_model b ex st t segs n d).2.docTypeCache =
      st.docTypeCache := by
  unfold _extract_with_model
  rcases get_model_config st.models n t with _ | ⟨c, μ⟩ <;>
    simp [_make_ollama_request, record_performance]

theorem ewm_calls_some {st : ExtState} {n : String}
    (b : Backend) (ex : Examples) (t : TaskType) (segs : List String)
    (d : DocumentType) (h : (st.models n).isSome) :
    (_extract_with_model b ex st t segs n d).2.calls.length =
      st.calls.length + 1 := by
  unfold _extract_with_model
  rcases hc : get_model_config st.models n t with _ | ⟨c, μ⟩
  · rw [get_model_config_eq] at hc
    rcases hμ : st.models n with _ | c0
    · rw [hμ] at h; simp at h
    · rw [hμ] at hc; exact Option.noConfusion hc
  · simp [_make_ollama_request, record_performance]

theorem ewm_calls_fst {st : ExtState} {n : String} (b : Backend)
    (ex : Examples) (t : TaskType) (segs : List String) (d : DocumentType)
    (h : (st.models n).isSome) :
    (_extract_with_model b ex st t segs n d).2.calls.map Prod.fst =
      n :: st.calls.map Prod.fst := by
  unfold _extract_with_model
  rcases hc : get_model_config st.models n t with _ | ⟨c, μ⟩
  · rw [get_model_config_eq] at hc
    rcases hμ : st.models n with _ | c0
    · rw [hμ] at h; simp at h
    · rw [hμ] at hc; exact Option.noConfusion hc
  · simp [_make_ollama_request, record_performance]

theorem ewm_calls_mono (b : Backend) (ex : Examples) (st : ExtState)
    (t : TaskType) (segs : List String) (n : String) (d : DocumentType) :
    st.calls.length ≤ (_extract_with_model b ex st t segs n d).2.calls.length := by
  unfold _extract_with_model
  rcases get_model_config st.models n t with _ | ⟨c, μ⟩ <;>
    simp [_make_ollama_request, record_performance]

theorem ewm_models_isSome {b : Backend} {ex : Examples} {st : ExtState}
    {t : TaskType} {segs : List String} {n m : String} {d : DocumentType}
    (h : (st.models m).isSome) :
    ((_extract_with_model b ex st t segs n d).2.models m).isSome := by
  unfold _extract_with_model
  rcases hc : get_model_config st.models n t with _ | ⟨c, μ⟩
  · exact h
  · rw [get_model_config_eq] at hc
    rcases hμ : st.models n with _ | c0
    · rw [hμ] at hc; exact Option.noConfusion hc
    · rw [hμ] at hc
      simp only [Option.map_some', Option.some_inj, Prod.mk.injEq] at hc
      obtain ⟨-, hfun⟩ := hc
      simp only [_make_ollama_request, record_performance]
      rw [← hfun]
      by_cases hm : m = n <;> simp [hm, h]

/-! ## C1 -/

/-- **C1**: the spec requires `get_model_config` to clamp the temperature
on a *copy* and leave the registry's stored `ModelProfile` unchanged.
The code mutates the stored dataclass object: after fetching a Date
config and then a Description config for `granite3.2-vision`, the
registry's stored temperature is `0.5`, not its initial `0.3`.  This
theorem evaluates the code at that failing input. -/
theorem C1_get_model_config_mutates_registry :
    (_initialize_models "granite3.2-vision").map (fun c => c.temperature) =
        some (mkRat 3 10) ∧
    (do
      let p1 ← get_model_config _initialize_models "granite3.2-vision"
        TaskType.DATE_EXTRACTION
      let p2 ← get_model_config p1.2 "granite3.2-vision"
        TaskType.DESCRIPTION_EXTRACTION
      (p2.2 "granite3.2-vision").map (fun c => c.temperature)) =
        some (mkRat 1 2) ∧
    mkRat 1 2 ≠ mkRat 3 10 := by
  decide

/-! ## C4 -/

/-- **C4** (counterexample): text quality `0.5 < 0.7` does *not* force
`granite3.2-vision` for every task: for a Letter document and the Date
task the document-type adjustment returns `llama3.1:8b` before the
quality rule is ever consulted. -/
theorem C4_counterexample :
    mkRat 1 2 < mkRat 7 10 ∧
    select_optimal_model _initialize_models TaskType.DATE_EXTRACTION
        DocumentType.LETTER (mkRat 1 2) "speed" = "llama3.1:8b" ∧
    "llama3.1:8b" ≠ "granite3.2-vision" := by
  decide

/-- **C4** (amended): text quality strictly below `0.7` forces
`granite3.2-vision` for every task, priority mode and registry state,
*except* in the one case where an earlier document-type adjustment
already returned: a Letter document with the Date task, which yields
`llama3.1:8b` regardless of quality. -/
theorem C4_quality_override_amended
    (models : String → Option ModelConfig) (task : TaskType)
    (doc : DocumentType) (q : ℚ) (priority : String)
    (hq : q < mkRat 7 10)
    (hex : ¬(doc = DocumentType.LETTER ∧ task = TaskType.DATE_EXTRACTION)) :
    select_optimal_model models task doc q priority = "granite3.2-vision" := by
  unfold select_optimal_model
  split_ifs <;> first | rfl | exact absurd ‹_› hex | exact absurd hq ‹_›

/-- Witness for `C4_quality_override_amended` at a concrete input. -/
theorem C4_quality_override_amended_witness :
    select_optimal_model _initialize_models TaskType.DATE_EXTRACTION
        DocumentType.REPORT (mkRat 1 2) "speed" = "granite3.2-vision" :=
  C4_quality_override_amended _initialize_models TaskType.DATE_EXTRACTION
    DocumentType.REPORT (mkRat 1 2) "speed" (by decide) (by decide)

/-! ## C10 -/

/-- **C10**: document-type classification only ever produces Letter,
Newsletter, Report or Unknown; the `ARTICLE` variant of the enum is
never produced (assuming, as holds from a fresh manager, that no cached
entry is `ARTICLE`). -/
theorem C10_detect_never_article (st : ExtState) (segs : List String)
    (hcache : ∀ kv ∈ st.docTypeCache, kv.2 ≠ DocumentType.ARTICLE) :
    ((detect_document_type st segs).1 = DocumentType.LETTER ∨
     (detect_document_type st segs).1 = DocumentType.NEWSLETTER ∨
     (detect_document_type st segs).1 = DocumentType.REPORT ∨
     (detect_document_type st segs).1 = DocumentType.UNKNOWN) ∧
    (detect_document_type st segs).1 ≠ DocumentType.ARTICLE := by
  unfold detect_document_type
  rcases h : lookupA st.docTypeCache (docKey segs) with _ | d
  · simp only [classify_text]
    split_ifs <;> simp
  · have hd : d ≠ DocumentType.ARTICLE := hcache _ (lookupA_mem h)
    rcases d <;> simp_all

/-- Witness for `C10_detect_never_article` on a fresh manager state. -/
theorem C10_detect_never_article_witness :
    ((detect_document_type initExtState ["Dear friends"]).1 =
        DocumentType.LETTER ∨
     (detect_document_type initExtState ["Dear friends"]).1 =
        DocumentType.NEWSLETTER ∨
     (detect_document_type initExtState ["Dear friends"]).1 =
        DocumentType.REPORT ∨
     (detect_document_type initExtState ["Dear friends"]).1 =
        DocumentType.UNKNOWN) ∧
    (detect_document_type initExtState ["Dear friends"]).1 ≠
      DocumentType.ARTICLE :=
  C10_detect_never_article initExtState ["Dear friends"] (by decide)

theorem ite_pair_eq (c : Prop) [Decidable c] (x y : ExtractionResult)
    (s : ExtState) : (if c then (x, s) else (y, s)) = (if c then x else y, s) := by
  split <;> rfl

theorem snd_ite_pair (c : Prop) [Decidable c] (x y : ExtractionResult)
    (s : ExtState) : (if c then (x, s) else (y, s)).2 = s := by
  split <;> rfl

theorem fst_ite_pair (c : Prop) [Decidable c] (x y : ExtractionResult)
    (s : ExtState) : (if c then (x, s) else (y, s)).1 = if c then x else y := by
  split <;> rfl

theorem two_pass_calls_mono (b : Backend) (ex : Examples) (st : ExtState)
    (t : TaskType) (segs : List String) (d : DocumentType)
    (first : ExtractionResult) :
    st.calls.length ≤
      (_two_pass_extraction b ex st t segs d first).2.calls.length := by
  simp only [_two_pass_extraction]
  split <;> rw [snd_ite_pair] <;> exact ewm_calls_mono ..

theorem extract_single_calls_grow (b : Backend) (ex : Examples)
    (st : ExtState) (t : TaskType) (segs : List String) (pr : String)
    (hk : hasRegistryKeys st.models) :
    st.calls.length < (extract_single b ex st t segs pr).2.calls.length := by
  have hm : ((detect_document_type st segs).2.models
      (select_optimal_model (detect_document_type st segs).2.models t
        (detect_document_type st segs).1 (estimate_text_quality segs) pr)).isSome := by
    rw [detect_models]
    exact hk _ (select_mem ..)
  have h1 := ewm_calls_some b ex t segs (detect_document_type st segs).1 hm
  rw [detect_calls] at h1
  simp only [extract_single]
  split
  · calc st.calls.length < st.calls.length + 1 := Nat.lt_succ_self _
      _ = _ := h1.symm
      _ ≤ _ := two_pass_calls_mono ..
  · dsimp only
    omega

/-! ## C2 -/

/-- **C2** (counterexample): there is no deterministic date
pre-extractor.  On text containing the ISO date `"2021-03-05"`, with a
backend whose responses are empty (the transport-failure behaviour),
`extract_single` for the Date task issues two generate requests (first
pass plus escalation) — not zero — and returns an empty value with
confidence `0.1`, not `"2021-03-05"` with confidence `0.9`. -/
theorem C2_counterexample :
    (extract_single (fun _ _ _ => ("", 0)) defaultExamples initExtState
        TaskType.DATE_EXTRACTION ["2021-03-05"] "balanced").2.calls.length = 2 ∧
    (extract_single (fun _ _ _ => ("", 0)) defaultExamples initExtState
        TaskType.DATE_EXTRACTION ["2021-03-05"] "balanced").1.value ≠
      "2021-03-05" ∧
    (extract_single (fun _ _ _ => ("", 0)) defaultExamples initExtState
        TaskType.DATE_EXTRACTION ["2021-03-05"] "balanced").1.confidence ≠
      mkRat 9 10 := by
  decide

/-- **C2** (amended): `extract_single` always calls the inference
backend — every invocation strictly grows the generate-request log, for
any input text (there is no pre-extraction short-circuit).  The `0.9`
of the claim is the confidence score the estimator assigns to an
ISO-shaped *model response* for the Date task: a response
`"2021-03-05"` scores at least `0.9` (exactly `0.9` when the value does
not occur in the source text, `1.0` capped otherwise). -/
theorem C2_no_preextractor_amended :
    (∀ (b : Backend) (ex : Examples) (st : ExtState) (t : TaskType)
        (segs : List String) (pr : String),
      hasRegistryKeys st.models →
      st.calls.length < (extract_single b ex st t segs pr).2.calls.length) ∧
    ∀ segs : List String,
      mkRat 9 10 ≤ _estimate_confidence "2021-03-05"
        TaskType.DATE_EXTRACTION segs := by
  constructor
  · intro b ex st t segs pr hk
    exact extract_single_calls_grow b ex st t segs pr hk
  · intro segs
    unfold _estimate_confidence
    rw [if_neg (by decide)]
    dsimp only
    split_ifs <;>
      first
        | decide
        | exact absurd (by decide : isoDatePrefixMatch "2021-03-05" = true) ‹_›

/-- Witness for `C2_no_preextractor_amended` at a concrete input. -/
theorem C2_no_preextractor_amended_witness :
    initExtState.calls.length <
      (extract_single (fun _ _ _ => ("date", 0)) defaultExamples initExtState
        TaskType.DATE_EXTRACTION ["some text"] "speed").2.calls.length ∧
    mkRat 9 10 ≤ _estimate_confidence "2021-03-05"
      TaskType.DATE_EXTRACTION ["some text"] :=
  ⟨C2_no_preextractor_amended.1 _ defaultExamples initExtState
      TaskType.DATE_EXTRACTION ["some text"] "speed" (by decide),
    C2_no_preextractor_amended.2 ["some text"]⟩

/-! ## C3 -/

/-- **C3** (counterexample): there is no result cache.  Calling
`extract_single` a second time on the identical `(task, text_segments)`
pair issues fresh generate requests: the call log strictly grows on the
second invocation, contradicting "the second invocation does not call
the inference backend at all". -/
theorem C3_counterexample :
    (extract_single (fun _ _ _ => ("x", 0)) defaultExamples
      (extract_single (fun _ _ _ => ("x", 0)) defaultExamples initExtState
        TaskType.TITLE_EXTRACTION ["y"] "balanced").2
      TaskType.TITLE_EXTRACTION ["y"] "balanced").2.calls.length ≠
    (extract_single (fun _ _ _ => ("x", 0)) defaultExamples initExtState
      TaskType.TITLE_EXTRACTION ["y"] "balanced").2.calls.length := by
  decide

/-! ## C7 -/

/-- **C7**: escalation's second pass uses the fixed override chain —
the fast tier `llama3.1:8b` steps up to the balanced tier
`granite3.2-vision`, the balanced tier steps up to the high-accuracy
tier `llama3.1:70b`, and anything else falls back to the balanced
tier — so the second model always differs from the first; the returned
result is the second pass exactly when its confidence is strictly
higher, and on ties the first-pass result is kept. -/
theorem C7_two_pass_override_chain :
    (second_model_choice "llama3.1:8b" = "granite3.2-vision" ∧
     second_model_choice "granite3.2-vision" = "llama3.1:70b" ∧
     second_model_choice "llama3.1:70b" = "granite3.2-vision") ∧
    (∀ m : String, second_model_choice m ≠ m) ∧
    ∀ (b : Backend) (ex : Examples) (st : ExtState) (t : TaskType)
      (segs : List String) (d : DocumentType) (first : ExtractionResult),
      _two_pass_extraction b ex st t segs d first =
        (if (_extract_with_model b ex st t segs
              (second_model_choice first.model_used) d).1.confidence >
            first.confidence then
          (_extract_with_model b ex st t segs
            (second_model_choice first.model_used) d).1
        else first,
         (_extract_with_model b ex st t segs
           (second_model_choice first.model_used) d).2) := by
  refine ⟨⟨by decide, by decide, by decide⟩, ?_, ?_⟩
  · intro m
    unfold second_model_choice
    split_ifs with h1 h2
    · rw [h1]; decide
    · rw [h2]; decide
    · exact fun e => h2 e.symm
  · intro b ex st t segs d first
    simp only [_two_pass_extraction, second_model_choice, ite_pair_eq]

/-! ## C9 -/

/-- **C9**: in the parallel fan-out, each of the four tasks gets an
entry in the combined output keyed by its `task.value`; a task whose
pipeline run raises is converted to the placeholder result (empty
value, confidence `0`, model tag `"error"`), and a task whose run
succeeds keeps its own result — sibling failures do not disturb it. -/
theorem C9_fanout_isolation
    (run : TaskType → Except String ExtractionResult) :
    (extract_parallel run).length = 4 ∧
    ∀ t ∈ parallel_tasks,
      (lookupA (extract_parallel run) t.value).isSome ∧
      (∀ r, run t = .ok r →
        lookupA (extract_parallel run) t.value = some r) ∧
      ∀ e, run t = .error e →
        lookupA (extract_parallel run) t.value =
          some { value := "", confidence := 0, model_used := "error",
                 processing_time := 0 } := by
  constructor
  · simp [extract_parallel, parallel_tasks]
  · intro t ht
    fin_cases ht <;>
      refine ⟨?_, fun r hr => ?_, fun e he => ?_⟩ <;>
      simp [extract_parallel, parallel_tasks, lookupA, TaskType.value] <;>
      simp [*]

/-- Witness for `C9_fanout_isolation`: a run where the Description task
throws while the others succeed. -/
theorem C9_fanout_isolation_witness :
    lookupA
      (extract_parallel fun t =>
        if t = TaskType.DESCRIPTION_EXTRACTION then .error "boom"
        else .ok { value := "v", confidence := 1, model_used := "m",
                   processing_time := 0 })
      TaskType.DESCRIPTION_EXTRACTION.value =
      some { value := "", confidence := 0, model_used := "error",
             processing_time := 0 } ∧
    lookupA
      (extract_parallel fun t =>
        if t = TaskType.DESCRIPTION_EXTRACTION then .error "boom"
        else .ok { value := "v", confidence := 1, model_used := "m",
                   processing_time := 0 })
      TaskType.TITLE_EXTRACTION.value =
      some { value := "v", confidence := 1, model_used := "m",
             processing_time := 0 } :=
  ⟨(((C9_fanout_isolation _).2 TaskType.DESCRIPTION_EXTRACTION
      (by decide)).2.2) "boom" rfl,
   (((C9_fanout_isolation _).2 TaskType.TITLE_EXTRACTION
      (by decide)).2.1) _ rfl⟩

/-! ## C5 -/

theorem consensus_tag_ne (s : String) : "consensus(" ++ s ++ ")" ≠ s := by
  intro e
  have h := congrArg String.length e
  rw [String.length_append, String.length_append] at h
  have h10 : "consensus(".length = 10 := rfl
  have h1 : ")".length = 1 := rfl
  omega

/-- **C5** (counterexample): `ExtractionResult` objects are *not*
immutable.  `_extract_with_model` constructs each consensus candidate
with `model_used` equal to the model name that produced it
(`"llama3.1:8b"` and `"granite3.2-vision"` here), but the results list
as it stands when `extract_with_consensus` returns no longer holds
those as-constructed values: the winner's `model_used` has been
rewritten in place to a `consensus(...)` wrapper. -/
theorem C5_counterexample :
    (extract_with_consensus (fun _ _ _ => ("x", 0)) defaultExamples
        initExtState TaskType.DATE_EXTRACTION ["y"]).2.1.map
        (fun r => r.model_used) ≠ ["llama3.1:8b", "granite3.2-vision"] ∧
    (extract_with_consensus (fun _ _ _ => ("x", 0)) defaultExamples
        initExtState TaskType.DATE_EXTRACTION ["y"]).2.1.map
        (fun r => r.model_used) =
      ["consensus(llama3.1:8b)", "granite3.2-vision"] := by
  decide

/-- **C5** (amended): two-pass escalation indeed replaces wholesale —
it returns either the first-pass result or the second-pass result
unchanged.  Consensus selection, however, mutates the winning result's
`model_used` in place, wrapping it as `consensus(<inner>)` (which never
equals the inner name); the `value`, `confidence` and `processing_time`
fields of both stored results are never mutated. -/
theorem C5_immutability_amended :
    (∀ (b : Backend) (ex : Examples) (st : ExtState) (t : TaskType)
        (segs : List String) (d : DocumentType) (first : ExtractionResult),
      (_two_pass_extraction b ex st t segs d first).1 = first ∨
      (_two_pass_extraction b ex st t segs d first).1 =
        (_extract_with_model b ex st t segs
          (if first.model_used = "llama3.1:8b" then "granite3.2-vision"
           else if first.model_used = "granite3.2-vision" then "llama3.1:70b"
           else "granite3.2-vision") d).1) ∧
    (∀ (b : Backend) (ex : Examples) (st : ExtState) (t : TaskType)
        (segs : List String),
      let det := detect_document_type st segs
      let o1 := _extract_with_model b ex det.2 t segs "llama3.1:8b" det.1
      let o2 := _extract_with_model b ex o1.2 t segs "granite3.2-vision" det.1
      let out := extract_with_consensus b ex st t segs
      out.2.1.map (fun r => r.value) = [o1.1.value, o2.1.value] ∧
      out.2.1.map (fun r => r.confidence) =
        [o1.1.confidence, o2.1.confidence] ∧
      out.2.1.map (fun r => r.processing_time) =
        [o1.1.processing_time, o2.1.processing_time] ∧
      (out.1.model_used = "consensus(" ++ o1.1.model_used ++ ")" ∨
       out.1.model_used = "consensus(" ++ o2.1.model_used ++ ")")) ∧
    ∀ s : String, "consensus(" ++ s ++ ")" ≠ s := by
  refine ⟨?_, ?_, consensus_tag_ne⟩
  · intro b ex st t segs d first
    simp only [_two_pass_extraction, fst_ite_pair]
    by_cases hc : (_extract_with_model b ex st t segs
        (if first.model_used = "llama3.1:8b" then "granite3.2-vision"
         else if first.model_used = "granite3.2-vision" then "llama3.1:70b"
         else "granite3.2-vision") d).1.confidence > first.confidence
    · rw [if_pos hc]; right; rfl
    · rw [if_neg hc]; left; rfl
  · intro b ex st t segs
    refine ⟨?_, ?_, ?_, ?_⟩ <;>
      simp only [extract_with_consensus] <;>
      split_ifs <;> simp

/-! ## C8 -/

/-- **C8**: consensus runs the task through exactly the two distinct
models `llama3.1:8b` and `granite3.2-vision` (two generate requests,
in that order); the baseline rule selects the higher-confidence result
(ties keep the first) and tags it `consensus(<inner>)`; and whenever
the two confidences differ by less than `0.2` and the two values
differ and the task is Title, the result with the strictly shorter
value is selected instead — in either direction — again wrapped as
`consensus(<inner>)`. -/
theorem C8_consensus_conservative_title (b : Backend) (ex : Examples)
    (st : ExtState) (t : TaskType) (segs : List String)
    (hk : hasRegistryKeys st.models) :
    let det := detect_document_type st segs
    let o1 := _extract_with_model b ex det.2 t segs "llama3.1:8b" det.1
    let o2 := _extract_with_model b ex o1.2 t segs "granite3.2-vision" det.1
    let out := extract_with_consensus b ex st t segs
    (out.2.2.calls.map Prod.fst =
      "granite3.2-vision" :: "llama3.1:8b" :: st.calls.map Prod.fst) ∧
    (pyabs (qsub o1.1.confidence o2.1.confidence) < mkRat 2 10 →
      o1.1.value ≠ o2.1.value → t = TaskType.TITLE_EXTRACTION →
      (o1.1.value.length < o2.1.value.length →
        out.1 = { o1.1 with
          model_used := "consensus(" ++ o1.1.model_used ++ ")" }) ∧
      (o2.1.value.length < o1.1.value.length →
        out.1 = { o2.1 with
          model_used := "consensus(" ++ o2.1.model_used ++ ")" })) ∧
    (¬(pyabs (qsub o1.1.confidence o2.1.confidence) < mkRat 2 10 ∧
        o1.1.value ≠ o2.1.value ∧ t = TaskType.TITLE_EXTRACTION) →
      (o2.1.confidence > o1.1.confidence →
        out.1 = { o2.1 with
          model_used := "consensus(" ++ o2.1.model_used ++ ")" }) ∧
      (¬o2.1.confidence > o1.1.confidence →
        out.1 = { o1.1 with
          model_used := "consensus(" ++ o1.1.model_used ++ ")" })) := by
  have hm1 : ((detect_document_type st segs).2.models "llama3.1:8b").isSome := by
    rw [detect_models]; exact hk _ (by decide)
  have hm2 : ((_extract_with_model b ex (detect_document_type st segs).2 t
      segs "llama3.1:8b" (detect_document_type st segs).1).2.models
      "granite3.2-vision").isSome :=
    ewm_models_isSome (by rw [detect_models]; exact hk _ (by decide))
  have hc1 := ewm_calls_fst b ex t segs (detect_document_type st segs).1 hm1
  have hc2 := ewm_calls_fst b ex t segs (detect_document_type st segs).1 hm2
  refine ⟨?_, ?_, ?_⟩
  · simp only [extract_with_consensus]
    rw [hc2, hc1, detect_calls]
  · intro h1 h2 h3
    refine ⟨?_, ?_⟩ <;> intro hlen <;>
      simp only [extract_with_consensus] <;>
      rw [if_pos (And.intro h1 (And.intro h2 h3))]
    · rw [if_neg (by omega : ¬((_extract_with_model b ex
        (_extract_with_model b ex (detect_document_type st segs).2 t segs
          "llama3.1:8b" (detect_document_type st segs).1).2 t segs
        "granite3.2-vision" (detect_document_type st segs).1).1.value.length <
        (_extract_with_model b ex (detect_document_type st segs).2 t segs
          "llama3.1:8b" (detect_document_type st segs).1).1.value.length))]
      simp
    · rw [if_pos hlen]
      simp
  · intro hno
    refine ⟨?_, ?_⟩ <;> intro hconf <;>
      simp only [extract_with_consensus] <;>
      rw [if_neg hno]
    · rw [if_pos hconf]
      simp
    · rw [if_neg hconf]
      simp

/-- Witness for `C8_consensus_conservative_title`.  Override case:
confidences `0.7` and `0.8` (difference `0.1 < 0.2`), differing Title
values of lengths 8 and 40 — the length-8 value wins, tagged
`consensus(llama3.1:8b)`.  Baseline cases (Date task, so the override
does not apply): the higher-confidence result wins in both directions
— confidences `0.8`/`0.9` select the second model's value tagged
`consensus(granite3.2-vision)`, and `0.9`/`0.8` select the first
model's value tagged `consensus(llama3.1:8b)`. -/
theorem C8_consensus_conservative_title_witness :
    ((extract_with_consensus
        (fun m _ _ => if m = "llama3.1:8b" then ("Ab cd ef", 0)
          else ("this is a very long verbose title string", 0))
        defaultExamples initExtState TaskType.TITLE_EXTRACTION
        ["Ab cd ef"]).1.value = "Ab cd ef" ∧
     (extract_with_consensus
        (fun m _ _ => if m = "llama3.1:8b" then ("Ab cd ef", 0)
          else ("this is a very long verbose title string", 0))
        defaultExamples initExtState TaskType.TITLE_EXTRACTION
        ["Ab cd ef"]).1.model_used = "consensus(llama3.1:8b)") ∧
    ((extract_with_consensus
        (fun m _ _ => if m = "llama3.1:8b" then ("1999", 0)
          else ("2021-03-05", 0))
        defaultExamples initExtState TaskType.DATE_EXTRACTION
        ["x"]).1.value = "2021-03-05" ∧
     (extract_with_consensus
        (fun m _ _ => if m = "llama3.1:8b" then ("1999", 0)
          else ("2021-03-05", 0))
        defaultExamples initExtState TaskType.DATE_EXTRACTION
        ["x"]).1.model_used = "consensus(granite3.2-vision)") ∧
    ((extract_with_consensus
        (fun m _ _ => if m = "llama3.1:8b" then ("2021-03-05", 0)
          else ("1999", 0))
        defaultExamples initExtState TaskType.DATE_EXTRACTION
        ["x"]).1.value = "2021-03-05" ∧
     (extract_with_consensus
        (fun m _ _ => if m = "llama3.1:8b" then ("2021-03-05", 0)
          else ("1999", 0))
        defaultExamples initExtState TaskType.DATE_EXTRACTION
        ["x"]).1.model_used = "consensus(llama3.1:8b)") := by
  have h := ((C8_consensus_conservative_title
      (fun m _ _ => if m = "llama3.1:8b" then ("Ab cd ef", 0)
        else ("this is a very long verbose title string", 0))
      defaultExamples initExtState TaskType.TITLE_EXTRACTION
      ["Ab cd ef"] (by decide)).2.1 (by decide) (by decide) rfl).1 (by decide)
  have hhi := ((C8_consensus_conservative_title
      (fun m _ _ => if m = "llama3.1:8b" then ("1999", 0)
        else ("2021-03-05", 0))
      defaultExamples initExtState TaskType.DATE_EXTRACTION
      ["x"] (by decide)).2.2 (by decide)).1 (by decide)
  have hlo := ((C8_consensus_conservative_title
      (fun m _ _ => if m = "llama3.1:8b" then ("2021-03-05", 0)
        else ("1999", 0))
      defaultExamples initExtState TaskType.DATE_EXTRACTION
      ["x"] (by decide)).2.2 (by decide)).2 (by decide)
  refine ⟨⟨?_, ?_⟩, ⟨?_, ?_⟩, ?_, ?_⟩
  · rw [h]; decide
  · rw [h]; decide
  · rw [hhi]; decide
  · rw [hhi]; decide
  · rw [hlo]; decide
  · rw [hlo]; decide

/-! ## C6 -/

theorem chain_mem (m : String) :
    (if m = "llama3.1:8b" then "granite3.2-vision"
     else if m = "granite3.2-vision" then "llama3.1:70b"
     else "granite3.2-vision") ∈ registryKeys := by
  split_ifs <;> decide

theorem two_pass_calls_some {st : ExtState} {first : ExtractionResult}
    (b : Backend) (ex : Examples) (t : TaskType) (segs : List String)
    (d : DocumentType)
    (h : (st.models
      (if first.model_used = "llama3.1:8b" then "granite3.2-vision"
       else if first.model_used = "granite3.2-vision" then "llama3.1:70b"
       else "granite3.2-vision")).isSome) :
    (_two_pass_extraction b ex st t segs d first).2.calls.length =
      st.calls.length + 1 := by
  simp only [_two_pass_extraction]
  rw [snd_ite_pair]
  exact ewm_calls_some b ex t segs d h

/-- **C6**: the two-pass predicate fires exactly under the claimed
condition (confidence `< 0.6`; or Newsletter/Report and `< 0.8`; or
Description and `< 0.75`), and a first pass whose confidence is `0.5`
always escalates, producing exactly two generate requests for the
task. -/
theorem C6_escalation_policy :
    (∀ (t : TaskType) (c : ℚ) (d : DocumentType),
      should_use_two_pass t c d = true ↔
        (c < mkRat 6 10 ∨
         ((d = DocumentType.NEWSLETTER ∨ d = DocumentType.REPORT) ∧
           c < mkRat 8 10) ∨
         (t = TaskType.DESCRIPTION_EXTRACTION ∧ c < mkRat 75 100))) ∧
    ∀ (b : Backend) (ex : Examples) (st : ExtState) (t : TaskType)
      (segs : List String) (pr : String),
      hasRegistryKeys st.models →
      (_extract_with_model b ex (detect_document_type st segs).2 t segs
        (select_optimal_model (detect_document_type st segs).2.models t
          (detect_document_type st segs).1 (estimate_text_quality segs) pr)
        (detect_document_type st segs).1).1.confidence = mkRat 1 2 →
      (extract_single b ex st t segs pr).2.calls.length =
        st.calls.length + 2 := by
  constructor
  · intro t c d
    unfold should_use_two_pass
    split_ifs <;> simp_all
  · intro b ex st t segs pr hk hconf
    have hm : ((detect_document_type st segs).2.models
        (select_optimal_model (detect_document_type st segs).2.models t
          (detect_document_type st segs).1 (estimate_text_quality segs)
          pr)).isSome := by
      rw [detect_models]
      exact hk _ (select_mem ..)
    have h1 := ewm_calls_some b ex t segs (detect_document_type st segs).1 hm
    rw [detect_calls] at h1
    have hcond : should_use_two_pass t
        ((_extract_with_model b ex (detect_document_type st segs).2 t segs
          (select_optimal_model (detect_document_type st segs).2.models t
            (detect_document_type st segs).1 (estimate_text_quality segs) pr)
          (detect_document_type st segs).1).1.confidence)
        (detect_document_type st segs).1 = true := by
      rw [hconf]
      unfold should_use_two_pass
      rw [if_pos (by decide)]
    have hk2 : (((_extract_with_model b ex (detect_document_type st segs).2
        t segs
        (select_optimal_model (detect_document_type st segs).2.models t
          (detect_document_type st segs).1 (estimate_text_quality segs) pr)
        (detect_document_type st segs).1).2.models)
        (if (_extract_with_model b ex (detect_document_type st segs).2 t segs
            (select_optimal_model (detect_document_type st segs).2.models t
              (detect_document_type st segs).1 (estimate_text_quality segs) pr)
            (detect_document_type st segs).1).1.model_used = "llama3.1:8b"
         then "granite3.2-vision"
         else if (_extract_with_model b ex (detect_document_type st segs).2 t
            segs
            (select_optimal_model (detect_document_type st segs).2.models t
              (detect_document_type st segs).1 (estimate_text_quality segs) pr)
            (detect_document_type st segs).1).1.model_used =
              "granite3.2-vision"
         then "llama3.1:70b"
         else "granite3.2-vision")).isSome :=
      ewm_models_isSome (by rw [detect_models]; exact hk _ (chain_mem _))
    simp only [extract_single]
    rw [if_pos hcond, two_pass_calls_some b ex t segs
      (detect_document_type st segs).1 hk2, h1]

/-- Witness for `C6_escalation_policy`: a backend answering `"hello"`
gives first-pass confidence exactly `0.5` on the Date task, and the
invocation issues exactly two generate requests. -/
theorem C6_escalation_policy_witness :
    (extract_single (fun _ _ _ => ("hello", 0)) defaultExamples initExtState
      TaskType.DATE_EXTRACTION ["x"] "balanced").2.calls.length =
      initExtState.calls.length + 2 :=
  C6_escalation_policy.2 _ defaultExamples initExtState
    TaskType.DATE_EXTRACTION ["x"] "balanced" (by decide) (by decide)

/-! ## C3: determinism of repeated invocations

The second invocation runs from a mutated state: the registry
temperatures may have been clamped (the C1 bug) and the document-type
cache is warm.  The lemmas below show neither affects the returned
`ExtractionResult`: clamping is idempotent and score-preserving, and the
cache entry for the same text is exactly its classification. -/

theorem scoreOf_congr {μ1 μ2 : String → Option ModelConfig}
    (h : scoresAgree μ1 μ2) (f : ModelConfig → ℚ)
    (hf : ∀ c1 c2 : ModelConfig, c1.speed_score = c2.speed_score →
      c1.accuracy_score = c2.accuracy_score → f c1 = f c2) :
    scoreOf μ1 f = scoreOf μ2 f := by
  funext m
  have hm := h m
  unfold scoreOf
  rcases h1 : μ1 m with _ | c1 <;> rcases h2 : μ2 m with _ | c2 <;>
    rw [h1, h2] at hm <;>
    first
      | rfl
      | (simp only [Option.map_some', Option.some_inj, Prod.mk.injEq] at hm
         exact hf _ _ hm.1 hm.2)
      | simp at hm

theorem select_congr {μ1 μ2 : String → Option ModelConfig}
    (h : scoresAgree μ1 μ2) (t : TaskType) (d : DocumentType) (q : ℚ)
    (p : String) :
    select_optimal_model μ1 t d q p = select_optimal_model μ2 t d q p := by
  unfold select_optimal_model
  rw [scoreOf_congr h (fun c => (c.speed_score : ℚ))
      (fun c1 c2 hs _ => by simp [hs]),
    scoreOf_congr h (fun c => (c.accuracy_score : ℚ))
      (fun c1 c2 _ ha => by simp [ha]),
    scoreOf_congr h
      (fun c => qdiv (qadd (c.speed_score : ℚ) (c.accuracy_score : ℚ)) 2)
      (fun c1 c2 hs ha => by simp [hs, ha])]

theorem ewm_Rmod {t : TaskType} {st : ExtState} (h : Rmod t st.models)
    (b : Backend) (ex : Examples) (segs : List String) (n : String)
    (d : DocumentType) :
    Rmod t (_extract_with_model b ex st t segs n d).2.models := by
  unfold _extract_with_model
  rcases q : get_model_config st.models n t with _ | ⟨cfg, μ⟩ <;>
    simp only [q]
  · exact h
  · simp only [_make_ollama_request, record_performance]
    exact Rmod_preserved h q

theorem ewm_result_congr {t : TaskType} {st1 st2 : ExtState}
    (h1 : Rmod t st1.models) (h2 : Rmod t st2.models)
    (b : Backend) (ex : Examples) (segs : List String) (n : String)
    (d : DocumentType) :
    (_extract_with_model b ex st1 t segs n d).1 =
      (_extract_with_model b ex st2 t segs n d).1 := by
  have e : (get_model_config st1.models n t).map (fun p => p.1) =
      (get_model_config st2.models n t).map (fun p => p.1) :=
    (Rmod_config_fst h1 n).trans (Rmod_config_fst h2 n).symm
  unfold _extract_with_model
  rcases q1 : get_model_config st1.models n t with _ | ⟨cfg1, μ1⟩ <;>
    rcases q2 : get_model_config st2.models n t with _ | ⟨cfg2, μ2⟩ <;>
    rw [q1, q2] at e <;> simp only [q1, q2] <;>
    first
      | rfl
      | (simp only [Option.map_some', Option.some_inj] at e
         rw [e]
         simp [_make_ollama_request])
      | simp at e

theorem two_pass_cache (b : Backend) (ex : Examples) (st : ExtState)
    (t : TaskType) (segs : List String) (d : DocumentType)
    (first : ExtractionResult) :
    (_two_pass_extraction b ex st t segs d first).2.docTypeCache =
      st.docTypeCache := by
  simp only [_two_pass_extraction]
  rw [snd_ite_pair]
  exact ewm_cache ..

theorem two_pass_Rmod {t : TaskType} {st : ExtState} (h : Rmod t st.models)
    (b : Backend) (ex : Examples) (segs : List String) (d : DocumentType)
    (first : ExtractionResult) :
    Rmod t (_two_pass_extraction b ex st t segs d first).2.models := by
  simp only [_two_pass_extraction]
  rw [snd_ite_pair]
  exact ewm_Rmod h b ex segs _ d

theorem two_pass_result_congr {t : TaskType} {st1 st2 : ExtState}
    (h1 : Rmod t st1.models) (h2 : Rmod t st2.models)
    (b : Backend) (ex : Examples) (segs : List String) (d : DocumentType)
    (first : ExtractionResult) :
    (_two_pass_extraction b ex st1 t segs d first).1 =
      (_two_pass_extraction b ex st2 t segs d first).1 := by
  have e := ewm_result_congr h1 h2 b ex segs
    (if first.model_used = "llama3.1:8b" then "granite3.2-vision"
     else if first.model_used = "granite3.2-vision" then "llama3.1:70b"
     else "granite3.2-vision") d
  simp only [_two_pass_extraction, fst_ite_pair]
  rw [e]

theorem Rmod_hasKeys {t : TaskType} {μ : String → Option ModelConfig}
    (h : Rmod t μ) : hasRegistryKeys μ := by
  intro n hn
  refine Rmod_isSome h ?_
  fin_cases hn <;> decide

/-- Core stability lemma: from any state whose registry is an
(idempotently) task-clamped version of the initial one and whose
document-type cache is either cold or holds the text's own
classification, `extract_single` returns the same `ExtractionResult` as
from the initial state, and the output state is again of that shape. -/
theorem extract_single_stable (b : Backend) (ex : Examples) (t : TaskType)
    (segs : List String) (pr : String) (st : ExtState)
    (hR : Rmod t st.models)
    (hc : lookupA st.docTypeCache (docKey segs) = none ∨
      lookupA st.docTypeCache (docKey segs) = some (classify_text segs)) :
    (extract_single b ex st t segs pr).1 =
      (extract_single b ex initExtState t segs pr).1 ∧
    Rmod t (extract_single b ex st t segs pr).2.models ∧
    lookupA (extract_single b ex st t segs pr).2.docTypeCache (docKey segs) =
      some (classify_text segs) := by
  have hdoc : (detect_document_type st segs).1 = classify_text segs := by
    unfold detect_document_type
    rcases hc with hc | hc <;> rw [hc]
  have hdoc0 : (detect_document_type initExtState segs).1 =
      classify_text segs := rfl
  have hcl : lookupA (detect_document_type st segs).2.docTypeCache
      (docKey segs) = some (classify_text segs) := by
    rw [detect_cache_lookup, hdoc]
  have hR1 : Rmod t (detect_document_type st segs).2.models := by
    rw [detect_models]; exact hR
  have hR0 : Rmod t (detect_document_type initExtState segs).2.models := by
    rw [detect_models]; exact Rmod_init t
  have hsel : select_optimal_model (detect_document_type st segs).2.models t
      (detect_document_type st segs).1 (estimate_text_quality segs) pr =
      select_optimal_model
        (detect_document_type initExtState segs).2.models t
        (detect_document_type initExtState segs).1
        (estimate_text_quality segs) pr := by
    rw [detect_models, detect_models, hdoc, hdoc0]
    exact select_congr (Rmod_scoresAgree hR) t (classify_text segs)
      (estimate_text_quality segs) pr
  have hfp : (_extract_with_model b ex (detect_document_type st segs).2 t
      segs
      (select_optimal_model (detect_document_type st segs).2.models t
        (detect_document_type st segs).1 (estimate_text_quality segs) pr)
      (detect_document_type st segs).1).1 =
      (_extract_with_model b ex (detect_document_type initExtState segs).2 t
      segs
      (select_optimal_model (detect_document_type initExtState segs).2.models
        t (detect_document_type initExtState segs).1
        (estimate_text_quality segs) pr)
      (detect_document_type initExtState segs).1).1 := by
    rw [hsel, hdoc, hdoc0]
    exact ewm_result_congr hR1 hR0 b ex segs _ _
  refine ⟨?_, ?_, ?_⟩
  · simp only [extract_single]
    rw [apply_ite (Prod.fst (α := ExtractionResult) (β := ExtState)),
      apply_ite (Prod.fst (α := ExtractionResult) (β := ExtState)),
      hfp, hdoc, hdoc0]
    split
    · exact two_pass_result_congr (ewm_Rmod hR1 b ex segs _ _)
        (ewm_Rmod hR0 b ex segs _ _) b ex segs _ _
    · rfl
  · simp only [extract_single]
    split
    · exact two_pass_Rmod (ewm_Rmod hR1 b ex segs _ _) b ex segs _ _
    · exact ewm_Rmod hR1 b ex segs _ _
  · simp only [extract_single]
    split
    · rw [two_pass_cache, ewm_cache]
      exact hcl
    · dsimp only
      rw [ewm_cache]
      exact hcl

/-- **C3** (amended): there is no result cache, but repetition is
deterministic.  A second `extract_single` on the identical
`(task, text_segments)` pair returns an `ExtractionResult` equal in all
fields (value, confidence, model identifier, latency) to the first —
despite the registry temperatures mutated by the first call (the clamp
is idempotent) and the now-warm document-type cache — and it invokes
the inference backend again: the generate-request log strictly grows. -/
theorem C3_no_cache_deterministic_amended (b : Backend) (ex : Examples)
    (t : TaskType) (segs : List String) (pr : String) :
    (extract_single b ex (extract_single b ex initExtState t segs pr).2 t
      segs pr).1 = (extract_single b ex initExtState t segs pr).1 ∧
    (extract_single b ex initExtState t segs pr).2.calls.length <
      (extract_single b ex (extract_single b ex initExtState t segs pr).2 t
        segs pr).2.calls.length := by
  have h1 := extract_single_stable b ex t segs pr initExtState (Rmod_init t)
    (Or.inl rfl)
  have h2 := extract_single_stable b ex t segs pr
    (extract_single b ex initExtState t segs pr).2 h1.2.1 (Or.inr h1.2.2)
  exact ⟨h2.1, extract_single_calls_grow b ex _ t segs pr
    (Rmod_hasKeys h1.2.1)⟩

end Transi
